import Mathlib

/-!
Verification of the MusicRecommender recommendation core against its
specification.  The Python services under `recomendations/services/`,
`music/models/` and `utils/locks.py` are shallowly embedded: Django rows
become Lean structures, querysets become lists, Python floats become
rationals, and fallible Python code (attribute errors, unbound names)
returns `Except`.  Each embedded definition mirrors one source function
and keeps its name where Lean allows it.
-/

namespace MusicRecommender

/-! ## Data model

`Tag`, `TrackTag` (a `TrackTagAssignment` row joined with its tag via
`select_related("tag")`), and `UserTag` (a `UserTagAffinity` row) mirror
the Django models `music.models.Tag`, `music.models.TrackTag` and
`recomendations.models.UserTag`. -/

structure Tag where
  id : Nat
  name : String
  normalized_name : String
  total_usage_count : Nat
  is_active : Bool
deriving Repr, DecidableEq

structure TrackTag where
  track_id : Nat
  tag : Tag
  weight : ℚ
  is_active : Bool
deriving Repr, DecidableEq

structure UserTag where
  user_id : Nat
  tag_id : Nat
  source : String
  weight : ℚ
  confidence : ℚ
  is_active : Bool
deriving Repr, DecidableEq

/-- The database state seen by `apply_feedback_to_tags`: the `TrackTag`
table and the `UserTag` table. -/
structure DB where
  trackTags : List TrackTag
  userTags : List UserTag
deriving Repr, DecidableEq

/-! ## Tag quality filter (`recomendations/services/tag_filter.py`) -/

/-- `BLOCKED_TAG_NAMES` from `tag_filter.py`, verbatim. -/
def BLOCKED_TAG_NAMES : List String :=
  [ "guys i would fuck", "hairy chest", "sexy", "hot", "beautiful", "cute",
    "gorgeous", "handsome",
    "seen live", "favourites", "favorite", "favorites", "favourite",
    "my favourite", "love", "loved", "awesome", "amazing", "great", "good",
    "best", "brilliant", "perfect", "interesting",
    "music", "songs", "tracks", "audio", "albums", "album", "artists",
    "artist",
    "heard on pandora", "spotify", "youtube", "soundcloud", "lastfm",
    "artistes", "male vocalists", "female vocalists", "under 2000 listeners",
    "all", "various", "misc" ]

/-- `MIN_TAG_USAGE_COUNT = 3` from `tag_filter.py`. -/
def MIN_TAG_USAGE_COUNT : Nat := 3

/-! ## Feedback-to-taste adapter (`recomendations/services/feedback_service.py`) -/

/-- The three feedback actions of `RecommendationFeedback.Action`. -/
inductive Action where
  | like
  | skip
  | dislike
deriving Repr, DecidableEq

/-- `WEIGHT_DELTAS`: like `+0.10`, skip `0.00`, dislike `-0.15`. -/
def WEIGHT_DELTAS : Action → ℚ
  | .like => 1/10
  | .skip => 0
  | .dislike => -(3/20)

/-- `CONFIDENCE_DELTAS`: like `+0.05`, skip `0.00`, dislike `-0.05`. -/
def CONFIDENCE_DELTAS : Action → ℚ
  | .like => 1/20
  | .skip => 0
  | .dislike => -(1/20)

/-- `clamp(value, min_value=0.0, max_value=1.0)`:
`max(min_value, min(max_value, value))`. -/
def clamp (value : ℚ) (min_value : ℚ := 0) (max_value : ℚ := 1) : ℚ :=
  max min_value (min max_value value)

/-- The track-tag queryset built inside `apply_feedback_to_tags`:
`TrackTag.objects.filter(track=item.track, is_active=True,
tag__total_usage_count__gte=MIN_TAG_USAGE_COUNT)
.exclude(tag__normalized_name__in=BLOCKED_TAG_NAMES)`. -/
def feedbackTrackTags (tts : List TrackTag) (track_id : Nat) : List TrackTag :=
  tts.filter (fun tt =>
    tt.track_id == track_id && tt.is_active &&
    decide (MIN_TAG_USAGE_COUNT ≤ tt.tag.total_usage_count) &&
    !(BLOCKED_TAG_NAMES.contains tt.tag.normalized_name))

/-- The predicate used by `UserTag.objects.get_or_create(user=..., tag=...,
source="feedback")` to locate an existing affinity row. -/
def isFeedbackRow (user : Nat) (tag_id : Nat) (ut : UserTag) : Bool :=
  ut.user_id == user && ut.tag_id == tag_id && ut.source == "feedback"

/-- One iteration of the `for tt in track_tags` loop of
`apply_feedback_to_tags`: `get_or_create` with the soft-start defaults
`weight = clamp(0.3 * tt.weight + influence)`,
`confidence = clamp(0.4 + confidence_influence)`, or — when the row
already exists — the clamped in-place update of weight and confidence. -/
def feedbackStep (user : Nat) (weight_delta confidence_delta : ℚ)
    (uts : List UserTag) (tt : TrackTag) : List UserTag :=
  let influence := weight_delta * tt.weight
  let confidence_influence := confidence_delta * tt.weight
  match uts.find? (isFeedbackRow user tt.tag.id) with
  | none =>
      uts ++ [{ user_id := user, tag_id := tt.tag.id, source := "feedback",
                weight := clamp (3/10 * tt.weight + influence),
                confidence := clamp (2/5 + confidence_influence),
                is_active := true }]
  | some _ =>
      uts.map (fun ut =>
        if isFeedbackRow user tt.tag.id ut then
          { ut with weight := clamp (ut.weight + influence),
                    confidence := clamp (ut.confidence + confidence_influence) }
        else ut)

/-- `apply_feedback_to_tags(user, item, action)`: looks up the deltas, returns
immediately when both are zero (skip), fetches the item's active
quality-filtered track tags, returns unchanged when there are none, and
otherwise folds `feedbackStep` over them. -/
def apply_feedback_to_tags (db : DB) (user : Nat) (item_track_id : Nat)
    (action : Action) : DB :=
  let weight_delta := WEIGHT_DELTAS action
  let confidence_delta := CONFIDENCE_DELTAS action
  if weight_delta = 0 ∧ confidence_delta = 0 then db
  else
    let track_tags := feedbackTrackTags db.trackTags item_track_id
    if track_tags.isEmpty then db
    else { db with
           userTags := track_tags.foldl (feedbackStep user weight_delta confidence_delta) db.userTags }

/-- A finite sequence of feedback events `(user, item track, action)`,
applied in order. -/
def applyFeedbackSeq (db : DB) (events : List (Nat × Nat × Action)) : DB :=
  events.foldl (fun d e => apply_feedback_to_tags d e.1 e.2.1 e.2.2) db

/-- The row-level invariant of claim C1: weight and confidence lie in
`[0, 1]`. -/
def UserTag.inRange (ut : UserTag) : Prop :=
  0 ≤ ut.weight ∧ ut.weight ≤ 1 ∧ 0 ≤ ut.confidence ∧ ut.confidence ≤ 1

instance (ut : UserTag) : Decidable ut.inRange := by
  unfold UserTag.inRange; infer_instance

theorem clamp_nonneg (v : ℚ) : 0 ≤ clamp v := le_max_left 0 _

theorem clamp_le_one (v : ℚ) : clamp v ≤ 1 := by
  unfold clamp
  exact max_le (by norm_num) (min_le_left 1 v)

theorem feedbackStep_inRange {user : Nat} {wd cd : ℚ} {uts : List UserTag}
    {tt : TrackTag} (h : ∀ ut ∈ uts, ut.inRange) :
    ∀ ut ∈ feedbackStep user wd cd uts tt, ut.inRange := by
  intro ut hut
  unfold feedbackStep at hut
  cases hfind : uts.find? (isFeedbackRow user tt.tag.id) with
  | none =>
      rw [hfind] at hut
      simp only [List.mem_append, List.mem_singleton] at hut
      rcases hut with hmem | rfl
      · exact h ut hmem
      · exact ⟨clamp_nonneg _, clamp_le_one _, clamp_nonneg _, clamp_le_one _⟩
  | some u₀ =>
      rw [hfind] at hut
      simp only [List.mem_map] at hut
      obtain ⟨ut₀, hmem, hmap⟩ := hut
      by_cases hk : isFeedbackRow user tt.tag.id ut₀
      · rw [if_pos hk] at hmap
        subst hmap
        exact ⟨clamp_nonneg _, clamp_le_one _, clamp_nonneg _, clamp_le_one _⟩
      · rw [if_neg hk] at hmap
        subst hmap
        exact h ut₀ hmem

theorem foldl_feedbackStep_inRange {user : Nat} {wd cd : ℚ}
    (tts : List TrackTag) (uts : List UserTag) (h : ∀ ut ∈ uts, ut.inRange) :
    ∀ ut ∈ tts.foldl (feedbackStep user wd cd) uts, ut.inRange := by
  induction tts generalizing uts with
  | nil => simpa using h
  | cons tt rest ih =>
      simp only [List.foldl_cons]
      exact ih _ (feedbackStep_inRange h)

theorem apply_feedback_inRange {db : DB} {user track : Nat} {action : Action}
    (h : ∀ ut ∈ db.userTags, ut.inRange) :
    ∀ ut ∈ (apply_feedback_to_tags db user track action).userTags, ut.inRange := by
  unfold apply_feedback_to_tags
  dsimp only
  split
  · exact h
  · split
    · exact h
    · exact foldl_feedbackStep_inRange _ _ h

/-- C1: every `UserTagAffinity` row keeps `weight` and `confidence` inside
`[0, 1]` across a single `apply_feedback_to_tags` call and across every
finite sequence of like/skip/dislike feedback events, provided all rows
were in range beforehand. -/
theorem user_tag_affinity_range_invariant (db : DB)
    (events : List (Nat × Nat × Action))
    (h : ∀ ut ∈ db.userTags, ut.inRange) :
    (∀ user track action,
        ∀ ut ∈ (apply_feedback_to_tags db user track action).userTags, ut.inRange) ∧
    (∀ ut ∈ (applyFeedbackSeq db events).userTags, ut.inRange) := by
  constructor
  · intro user track action
    exact apply_feedback_inRange h
  · unfold applyFeedbackSeq
    induction events generalizing db with
    | nil => simpa using h
    | cons e rest ih =>
        simp only [List.foldl_cons]
        exact ih _ (apply_feedback_inRange h)

/-- A concrete database used by the feedback witnesses: one track (id 10)
carrying one active, quality-passing tag (id 2, usage count 5, weight 0.8),
and no pre-existing affinity rows. -/
def rockTag : Tag :=
  { id := 2, name := "Rock", normalized_name := "rock",
    total_usage_count := 5, is_active := true }

def dbFeedback : DB :=
  { trackTags := [{ track_id := 10, tag := rockTag, weight := 4/5, is_active := true }],
    userTags := [] }

theorem user_tag_affinity_range_invariant_witness :
    (∀ ut ∈ dbFeedback.userTags, ut.inRange) ∧
    (∀ ut ∈ (applyFeedbackSeq dbFeedback
        [(1, 10, Action.like), (1, 10, Action.dislike), (1, 10, Action.skip),
         (1, 10, Action.dislike), (1, 10, Action.dislike)]).userTags, ut.inRange) :=
  ⟨by decide,
   (user_tag_affinity_range_invariant dbFeedback _ (by decide)).2⟩

/-! ## Exact characterization of one feedback event (claim C3) -/

/-- Lookup of the `(user, tag, "feedback")` affinity row. -/
def findUserTag (uts : List UserTag) (user tag_id : Nat) : Option UserTag :=
  uts.find? (isFeedbackRow user tag_id)

theorem feedbackStep_preserves_key {user : Nat} {wd cd : ℚ} {tt : TrackTag}
    {τ : Nat} (ut : UserTag) :
    isFeedbackRow user τ
      (if isFeedbackRow user tt.tag.id ut then
        { ut with weight := clamp (ut.weight + wd * tt.weight),
                  confidence := clamp (ut.confidence + cd * tt.weight) }
       else ut) = isFeedbackRow user τ ut := by
  by_cases h : isFeedbackRow user tt.tag.id ut = true
  · rw [if_pos h]; rfl
  · rw [if_neg h]

theorem findUserTag_feedbackStep_ne {user : Nat} {wd cd : ℚ}
    {uts : List UserTag} {tt : TrackTag} {τ : Nat} (hne : tt.tag.id ≠ τ) :
    findUserTag (feedbackStep user wd cd uts tt) user τ = findUserTag uts user τ := by
  unfold feedbackStep findUserTag
  cases hfind : uts.find? (isFeedbackRow user tt.tag.id) with
  | none =>
      simp only [List.find?_append]
      have hrow : List.find? (isFeedbackRow user τ)
          [{ user_id := user, tag_id := tt.tag.id, source := "feedback",
             weight := clamp (3/10 * tt.weight + wd * tt.weight),
             confidence := clamp (2/5 + cd * tt.weight), is_active := true }] = none := by
        simp [isFeedbackRow, hne]
      rw [hrow, Option.or_none]
  | some u₀ =>
      rw [List.find?_map]
      have hcomp : (isFeedbackRow user τ) ∘
          (fun ut => if isFeedbackRow user tt.tag.id ut then
            { ut with weight := clamp (ut.weight + wd * tt.weight),
                      confidence := clamp (ut.confidence + cd * tt.weight) }
           else ut) = isFeedbackRow user τ :=
        funext fun ut => feedbackStep_preserves_key ut
      rw [hcomp]
      cases hx : uts.find? (isFeedbackRow user τ) with
      | none => rfl
      | some x =>
          have hpx := List.find?_some hx
          have h1 : x.tag_id = τ := by
            simp only [isFeedbackRow, Bool.and_eq_true, beq_iff_eq] at hpx
            exact hpx.1.2
          have hxne : isFeedbackRow user tt.tag.id x = false := by
            simp [isFeedbackRow, h1, Ne.symm hne]
          simp [hxne]

theorem findUserTag_feedbackStep_self {user : Nat} {wd cd : ℚ}
    {uts : List UserTag} {tt : TrackTag} :
    findUserTag (feedbackStep user wd cd uts tt) user tt.tag.id =
      (match findUserTag uts user tt.tag.id with
       | none =>
          some { user_id := user, tag_id := tt.tag.id, source := "feedback",
                 weight := clamp (3/10 * tt.weight + wd * tt.weight),
                 confidence := clamp (2/5 + cd * tt.weight), is_active := true }
       | some ut =>
          some { ut with
                   weight := clamp (ut.weight + wd * tt.weight),
                   confidence := clamp (ut.confidence + cd * tt.weight) }) := by
  unfold feedbackStep findUserTag
  cases hfind : uts.find? (isFeedbackRow user tt.tag.id) with
  | none =>
      simp only [hfind, List.find?_append, Option.none_or]
      simp [isFeedbackRow]
  | some ut₀ =>
      simp only [hfind]
      rw [List.find?_map]
      have hcomp : (isFeedbackRow user tt.tag.id) ∘
          (fun ut => if isFeedbackRow user tt.tag.id ut then
            { ut with weight := clamp (ut.weight + wd * tt.weight),
                      confidence := clamp (ut.confidence + cd * tt.weight) }
           else ut) = isFeedbackRow user tt.tag.id :=
        funext fun ut => feedbackStep_preserves_key ut
      rw [hcomp, hfind]
      have hp := List.find?_some hfind
      simp [hp]

theorem findUserTag_foldl_ne {user : Nat} {wd cd : ℚ} {τ : Nat}
    (tts : List TrackTag) (uts : List UserTag)
    (h : ∀ tt ∈ tts, tt.tag.id ≠ τ) :
    findUserTag (tts.foldl (feedbackStep user wd cd) uts) user τ =
      findUserTag uts user τ := by
  induction tts generalizing uts with
  | nil => rfl
  | cons a l ih =>
      simp only [List.foldl_cons]
      rw [ih _ (fun tt ht => h tt (List.mem_cons_of_mem a ht)),
        findUserTag_feedbackStep_ne (h a (List.mem_cons_self a l))]

theorem findUserTag_foldl_unique {user : Nat} {wd cd : ℚ} {tt : TrackTag}
    (tts : List TrackTag) (uts : List UserTag)
    (hf : tts.filter (fun x => x.tag.id == tt.tag.id) = [tt]) :
    findUserTag (tts.foldl (feedbackStep user wd cd) uts) user tt.tag.id =
      (match findUserTag uts user tt.tag.id with
       | none =>
          some { user_id := user, tag_id := tt.tag.id, source := "feedback",
                 weight := clamp (3/10 * tt.weight + wd * tt.weight),
                 confidence := clamp (2/5 + cd * tt.weight), is_active := true }
       | some ut =>
          some { ut with
                   weight := clamp (ut.weight + wd * tt.weight),
                   confidence := clamp (ut.confidence + cd * tt.weight) }) := by
  induction tts generalizing uts with
  | nil => simp at hf
  | cons a l ih =>
      rw [List.filter_cons] at hf
      by_cases ha : (a.tag.id == tt.tag.id) = true
      · rw [if_pos ha] at hf
        obtain ⟨heq, hnil⟩ := List.cons.inj hf
        have hl : ∀ x ∈ l, x.tag.id ≠ tt.tag.id := by
          intro x hx
          have := List.filter_eq_nil_iff.mp hnil x hx
          simpa using this
        simp only [List.foldl_cons]
        rw [findUserTag_foldl_ne l _ hl, heq, findUserTag_feedbackStep_self]
      · rw [if_neg ha] at hf
        simp only [List.foldl_cons]
        rw [ih _ hf, findUserTag_feedbackStep_ne (by simpa using ha)]

/-- C3: skip mutates nothing and returns immediately; for like/dislike, a
first-time `(user, tag, "feedback")` row is seeded as
`weight = clamp(0.3*w + delta_w*w)`, `confidence = clamp(0.4 + delta_c*w)`,
and an existing row has `delta_w*w` and `delta_c*w` added and clamped, where
the deltas are like `(+0.10, +0.05)` and dislike `(-0.15, -0.05)`. -/
theorem apply_feedback_exact (db : DB) (user track_id : Nat) (action : Action)
    (tt : TrackTag)
    (ha : action = Action.like ∨ action = Action.dislike)
    (hf : (feedbackTrackTags db.trackTags track_id).filter
            (fun x => x.tag.id == tt.tag.id) = [tt]) :
    (WEIGHT_DELTAS Action.like = 1/10 ∧ CONFIDENCE_DELTAS Action.like = 1/20 ∧
     WEIGHT_DELTAS Action.dislike = -(3/20) ∧
     CONFIDENCE_DELTAS Action.dislike = -(1/20)) ∧
    (∀ d u t, apply_feedback_to_tags d u t Action.skip = d) ∧
    findUserTag ((apply_feedback_to_tags db user track_id action).userTags)
        user tt.tag.id =
      (match findUserTag db.userTags user tt.tag.id with
       | none =>
          some { user_id := user, tag_id := tt.tag.id, source := "feedback",
                 weight := clamp (3/10 * tt.weight + WEIGHT_DELTAS action * tt.weight),
                 confidence := clamp (2/5 + CONFIDENCE_DELTAS action * tt.weight),
                 is_active := true }
       | some ut =>
          some { ut with
                 weight := clamp (ut.weight + WEIGHT_DELTAS action * tt.weight),
                 confidence :=
                   clamp (ut.confidence + CONFIDENCE_DELTAS action * tt.weight) }) := by
  refine ⟨⟨rfl, rfl, rfl, rfl⟩, ?_, ?_⟩
  · intro d u t
    simp [apply_feedback_to_tags, WEIGHT_DELTAS, CONFIDENCE_DELTAS]
  · have htts : (feedbackTrackTags db.trackTags track_id).isEmpty = false := by
      rcases hne : feedbackTrackTags db.trackTags track_id with _ | ⟨x, xs⟩
      · rw [hne] at hf; simp at hf
      · rfl
    have hdelta : ¬(WEIGHT_DELTAS action = 0 ∧ CONFIDENCE_DELTAS action = 0) := by
      rcases ha with rfl | rfl <;> simp [WEIGHT_DELTAS, CONFIDENCE_DELTAS]
    unfold apply_feedback_to_tags
    simp only [if_neg hdelta, htts, Bool.false_eq_true, if_false]
    exact findUserTag_foldl_unique _ _ hf

/-- Witness for C3, the spec scenario: a first-time like on an item whose
single active tag has weight 0.8 seeds `weight = 0.32`,
`confidence = 0.44`. -/
theorem apply_feedback_exact_witness :
    findUserTag ((apply_feedback_to_tags dbFeedback 1 10 Action.like).userTags) 1 2 =
      some { user_id := 1, tag_id := 2, source := "feedback",
             weight := 8/25, confidence := 11/25, is_active := true } :=
  ((apply_feedback_exact dbFeedback 1 10 Action.like
      { track_id := 10, tag := rockTag, weight := 4/5, is_active := true }
      (Or.inl rfl)
      (by simp [feedbackTrackTags, dbFeedback, rockTag, BLOCKED_TAG_NAMES,
            MIN_TAG_USAGE_COUNT])).2.2).trans
    (by norm_num [findUserTag, dbFeedback, rockTag, clamp, WEIGHT_DELTAS,
          CONFIDENCE_DELTAS, min_def, max_def])

/-! ## Tag name normalization (`music/models/tag.py`) and the tag quality
predicate (`recomendations/services/tag_filter.py`) -/

/-- Python `str.lower()` (ASCII case mapping, the range all repository tag
strings live in). -/
def pyLower (s : String) : String := ⟨s.data.map Char.toLower⟩

/-- Python's whitespace set for `str.strip()`. -/
def pyIsSpace (c : Char) : Bool :=
  c == ' ' || c == '\t' || c == '\n' || c == '\r' || c == '\x0b' || c == '\x0c'

/-- `str.strip()` on the character list: drop whitespace from both ends. -/
def stripL (l : List Char) : List Char :=
  ((l.dropWhile pyIsSpace).reverse.dropWhile pyIsSpace).reverse

/-- Python `str.strip()`. -/
def pyStrip (s : String) : String := ⟨stripL s.data⟩

/-- The character map of `str.replace('-', ' ')`. -/
def replaceDashChar (c : Char) : Char := if c = '-' then ' ' else c

/-- Python `str.replace('-', ' ')`. -/
def pyReplaceDash (s : String) : String := ⟨s.data.map replaceDashChar⟩

/-- `Tag.normalize(tag_name)`:
`tag_name.lower().strip().replace('-', ' ')`. -/
def Tag.normalize (tag_name : String) : String :=
  pyReplaceDash (pyStrip (pyLower tag_name))

/-- `Tag.save`: `self.normalized_name = self.normalize(self.name)` before
persisting. -/
def Tag.save (t : Tag) : Tag :=
  { t with normalized_name := Tag.normalize t.name }

/-- `is_valid_tag(tag)` from `tag_filter.py`.  The usage-count guard is
`if tag.total_usage_count and tag.total_usage_count < MIN_TAG_USAGE_COUNT`:
Python first tests the count for truthiness, so a count of `0` is falsy and
the `< MIN_TAG_USAGE_COUNT` rejection is skipped entirely. -/
def is_valid_tag (tag : Tag) : Bool :=
  if BLOCKED_TAG_NAMES.contains (pyLower tag.normalized_name) then false
  else if tag.total_usage_count != 0 &&
          tag.total_usage_count < MIN_TAG_USAGE_COUNT then false
  else true

/-- A non-blocklisted tag with a given usage count. -/
def usageTag (u : Nat) : Tag :=
  { id := 1, name := "Rock", normalized_name := "rock",
    total_usage_count := u, is_active := true }

/-- C7: `is_valid_tag` accepts a non-blocklisted tag whose
`total_usage_count` is `0` (the claim requires it rejected), while it does
reject counts `1` and `2` and accept `3`; the queryset filter used by the
feedback path (`total_usage_count__gte=3`) rejects the same count-0 tag,
so the two quality filters disagree. -/
theorem is_valid_tag_zero_usage :
    is_valid_tag (usageTag 0) = true ∧
    is_valid_tag (usageTag 1) = false ∧
    is_valid_tag (usageTag 2) = false ∧
    is_valid_tag (usageTag 3) = true ∧
    feedbackTrackTags
      [{ track_id := 10, tag := usageTag 0, weight := 1, is_active := true }] 10 = [] := by
  refine ⟨?_, ?_, ?_, ?_, ?_⟩ <;> decide

/-- C9 counterexample: normalization is not idempotent — a hyphen at the
edge of the trimmed string becomes a boundary space that only a second
strip would remove. -/
theorem normalize_not_idempotent :
    Tag.normalize (Tag.normalize "-rock-") ≠ Tag.normalize "-rock-" := by
  decide

theorem toNat_ofNat_of_lt {n : Nat} (h : n < 55296) : (Char.ofNat n).toNat = n := by
  have hv : n.isValidChar := Or.inl h
  rw [Char.ofNat, dif_pos hv]
  rfl

theorem toLower_idem (c : Char) : c.toLower.toLower = c.toLower := by
  by_cases h : c.toNat ≥ 65 ∧ c.toNat ≤ 90
  · have h1 : c.toLower = Char.ofNat (c.toNat + 32) := by
      simp only [Char.toLower]
      rw [if_pos h]
    have ht : (Char.ofNat (c.toNat + 32)).toNat = c.toNat + 32 :=
      toNat_ofNat_of_lt (by omega)
    rw [h1]
    simp only [Char.toLower]
    rw [if_neg]
    intro hcon
    rw [ht] at hcon
    omega
  · have h1 : c.toLower = c := by
      simp only [Char.toLower]
      rw [if_neg h]
    rw [h1, h1]

theorem map_eq_self_of {α : Type} {f : α → α} {l : List α}
    (h : ∀ a ∈ l, f a = a) : l.map f = l := by
  induction l with
  | nil => rfl
  | cons a l ih =>
      simp only [List.map_cons, h a (List.mem_cons_self a l),
        ih (fun b hb => h b (List.mem_cons_of_mem a hb))]

theorem mem_stripL {c : Char} {l : List Char} (h : c ∈ stripL l) : c ∈ l := by
  unfold stripL at h
  rw [List.mem_reverse] at h
  have h2 := (List.dropWhile_sublist pyIsSpace).mem h
  rw [List.mem_reverse] at h2
  exact (List.dropWhile_sublist pyIsSpace).mem h2

/-- The character-level core of `Tag.normalize`. -/
def normalizeL (l : List Char) : List Char :=
  (stripL (l.map Char.toLower)).map replaceDashChar

theorem normalize_data (s : String) :
    (Tag.normalize s).data = normalizeL s.data := rfl

theorem normalizeL_lower_fix {l : List Char} :
    ∀ c ∈ normalizeL l, c.toLower = c := by
  intro c hc
  unfold normalizeL at hc
  obtain ⟨c', hc', rfl⟩ := List.mem_map.mp hc
  have hc'' := mem_stripL hc'
  obtain ⟨c₀, _, rfl⟩ := List.mem_map.mp hc''
  unfold replaceDashChar
  by_cases hd : c₀.toLower = '-'
  · rw [if_pos hd]
    decide
  · rw [if_neg hd]
    exact toLower_idem c₀

theorem normalizeL_no_dash {l : List Char} :
    ∀ c ∈ normalizeL l, replaceDashChar c = c := by
  intro c hc
  unfold normalizeL at hc
  obtain ⟨c', hc', rfl⟩ := List.mem_map.mp hc
  unfold replaceDashChar
  by_cases hd : c' = '-'
  · rw [if_pos hd, if_neg (by decide)]
  · rw [if_neg hd, if_neg hd]

theorem normalizeL_normalizeL (l : List Char) :
    normalizeL (normalizeL l) = stripL (normalizeL l) := by
  conv_lhs => rw [normalizeL]
  rw [map_eq_self_of normalizeL_lower_fix]
  exact map_eq_self_of (fun c hc => normalizeL_no_dash c (mem_stripL hc))

/-- C9 amended: a second normalization only re-strips — for every string,
`normalize(normalize(x)) = strip(normalize(x))` (so normalization is
idempotent exactly when `normalize(x)` carries no boundary whitespace, in
particular for hyphen-free names), and every saved tag satisfies
`normalized_name = normalize(name)`. -/
theorem normalize_normalize_eq_strip (s : String) :
    Tag.normalize (Tag.normalize s) = pyStrip (Tag.normalize s) ∧
    ∀ t : Tag, (Tag.save t).normalized_name = Tag.normalize t.name := by
  constructor
  · have h : (Tag.normalize (Tag.normalize s)).data = (pyStrip (Tag.normalize s)).data := by
      rw [normalize_data, normalize_data]
      exact normalizeL_normalizeL s.data
    cases heq : Tag.normalize (Tag.normalize s)
    cases heq2 : pyStrip (Tag.normalize s)
    rw [heq, heq2] at h
    exact congrArg String.mk (by simpa using h)
  · intro t
    rfl

/-! ## Track scoring (`recomendations/services/recomendation.py`) -/

/-- `dict.get(key, default)` over an insertion-ordered association list. -/
def lookupD (m : List (Nat × ℚ)) (k : Nat) (default : ℚ) : ℚ :=
  match m.find? (fun p => p.1 == k) with
  | some p => p.2
  | none => default

/-- `defaultdict(float)` accumulation `m[k] += v`: update in place when the
key exists, otherwise append it. -/
def bump (m : List (Nat × ℚ)) (k : Nat) (v : ℚ) : List (Nat × ℚ) :=
  if m.any (fun p => p.1 == k) then
    m.map (fun p => if p.1 == k then (p.1, p.2 + v) else p)
  else m ++ [(k, v)]

/-- `score_tracks_by_tags(track_ids, user_tag_profile)`: empty result on an
empty profile; fetches active `TrackTag` rows of the candidate tracks; for
each row with positive user weight accumulates
`scores[tt["tag_id"]] += user_weight * tt["weight"]` — the accumulator is
keyed by the row's `tag_id`, exactly as in the source — and finally divides
by the maximum accumulated value when it is positive. -/
def score_tracks_by_tags (trackTags : List TrackTag) (track_ids : List Nat)
    (user_tag_profile : List (Nat × ℚ)) : List (Nat × ℚ) :=
  if user_tag_profile.isEmpty then []
  else
    let tracks_tag := trackTags.filter
      (fun tt => track_ids.contains tt.track_id && tt.is_active)
    let scores := tracks_tag.foldl (fun acc tt =>
      let user_weight := lookupD user_tag_profile tt.tag.id 0
      if 0 < user_weight then bump acc tt.tag.id (user_weight * tt.weight)
      else acc) []
    if scores.isEmpty then []
    else
      let max_score := ((scores.map Prod.snd).max?).getD 0
      if 0 < max_score then scores.map (fun p => (p.1, p.2 / max_score))
      else scores

/-- C2: on a single candidate track (id 1) whose only active tag (id 2,
weight 1) has user affinity 1 — so the track's raw sum is 1 and positive —
the returned map is keyed by the tag id 2, and looking up the candidate
track id 1 finds nothing, contradicting the claimed
`{track_id: normalized score}` result in which track 1 scores 1.0. -/
theorem score_tracks_by_tags_keyed_by_tag_id :
    score_tracks_by_tags
        [{ track_id := 1, tag := rockTag, weight := 1, is_active := true }]
        [1] [(2, 1)] = [(2, 1)] ∧
    (score_tracks_by_tags
        [{ track_id := 1, tag := rockTag, weight := 1, is_active := true }]
        [1] [(2, 1)]).find? (fun p => p.1 == 1) = none := by
  have h : score_tracks_by_tags
      [{ track_id := 1, tag := rockTag, weight := 1, is_active := true }]
      [1] [(2, 1)] = [(2, 1)] := by
    norm_num [score_tracks_by_tags, lookupD, bump, rockTag]
  exact ⟨h, by rw [h]; rfl⟩

/-! ## Cold-start candidate pool (`get_cold_start_candidates`) -/

/-- A `ColdStartTrack` row: one trending-pool entry for a track from one
external source. -/
structure ColdStartTrack where
  track_id : Nat
  source : String
  score : ℚ
deriving Repr, DecidableEq

/-- The queryset inside `get_cold_start_candidates`:
`values("track_id").annotate(best_score=Max("score"))
.order_by("track_id", "best_score")` — one row per distinct track id in
ascending order, carrying the maximum score over that track's rows. -/
def coldStartGrouped (rows : List ColdStartTrack) : List (Nat × ℚ) :=
  (List.insertionSort (· ≤ ·) (rows.map (·.track_id)).dedup).map
    (fun tid =>
      (tid, (((rows.filter (fun r => r.track_id == tid)).map (·.score)).max?).getD 0))

/-- One `dict()` insertion: later duplicates of a key overwrite in place. -/
def pyDictInsert (m : List (String × String)) (kv : String × String) :
    List (String × String) :=
  if m.any (fun p => p.1 == kv.1) then
    m.map (fun p => if p.1 == kv.1 then kv else p)
  else m ++ [kv]

/-- `get_cold_start_candidates()` wraps the grouped queryset in `dict(...)`.
Iterating each result row — a two-key Python dict — yields its KEYS
`"track_id"` and `"best_score"`, so every row contributes the same
key/value pair `("track_id", "best_score")` to the constructed dict. -/
def get_cold_start_candidates (rows : List ColdStartTrack) :
    List (String × String) :=
  (coldStartGrouped rows).foldl
    (fun acc _ => pyDictInsert acc ("track_id", "best_score")) []

/-- C6: with track 1 appearing in two sources (scores 0.9 and 0.5) and
track 2 in one (score 0.6), the grouped queryset does hold the claimed
per-track maxima, but the returned dict is the single pair
`{"track_id": "best_score"}` — not a map from track ids to best scores. -/
theorem get_cold_start_candidates_not_track_map :
    coldStartGrouped
        [{ track_id := 1, source := "spotify_global", score := 9/10 },
         { track_id := 1, source := "lastfm_global", score := 1/2 },
         { track_id := 2, source := "spotify_global", score := 3/5 }] =
      [(1, 9/10), (2, 3/5)] ∧
    get_cold_start_candidates
        [{ track_id := 1, source := "spotify_global", score := 9/10 },
         { track_id := 1, source := "lastfm_global", score := 1/2 },
         { track_id := 2, source := "spotify_global", score := 3/5 }] =
      [("track_id", "best_score")] := by
  have h : coldStartGrouped
      [{ track_id := 1, source := "spotify_global", score := 9/10 },
       { track_id := 1, source := "lastfm_global", score := 1/2 },
       { track_id := 2, source := "spotify_global", score := 3/5 }] =
      [(1, 9/10), (2, 3/5)] := by
    norm_num [coldStartGrouped, List.insertionSort, List.orderedInsert,
      List.dedup_cons_of_mem, List.dedup_cons_of_not_mem, max_def]
  refine ⟨h, ?_⟩
  rw [get_cold_start_candidates, h]
  rfl

/-! ## Python runtime errors surfaced by the embedded code -/

inductive PyError where
  | attributeError (msg : String)
  | nameError (msg : String)
deriving Repr, DecidableEq

/-! ## Recommendation builders: the scoring loops (claim C4) -/

/-- The `reason` dict attached to every scored candidate. -/
structure Reason where
  cold_start_score : ℚ
  tag_score : ℚ
  sim_score : ℚ
  strategy : String
deriving Repr, DecidableEq

/-- Python 3 `round` ties-to-even on the scaled value. -/
def roundHalfEven (x : ℚ) : ℤ :=
  let f := ⌊x⌋
  let r := x - f
  if r < 1/2 then f
  else if 1/2 < r then f + 1
  else if 2 ∣ f then f else f + 1

/-- Python `round(x, 4)`. -/
def round4 (x : ℚ) : ℚ := (roundHalfEven (x * 10000) : ℚ) / 10000

/-- The scoring loop of `build_cold_start_recommendation`: every candidate
gets `final_score = cs*0.3 + tag*0.5 + sim*0.2` when the user tag profile
is non-empty, the raw cold-start score otherwise, and a `reason` holding
the three component scores rounded to 4 decimals plus `"cold_start"`. -/
def coldStartScoreLoop (user_tags : List (Nat × ℚ)) (candidate_ids : List Nat)
    (candidates tag_scores sim_scores : List (Nat × ℚ)) :
    List (Nat × ℚ × Reason) :=
  candidate_ids.map (fun track_id =>
    let cs_score := lookupD candidates track_id 0
    let tag_score := lookupD tag_scores track_id 0
    let sim_score := lookupD sim_scores track_id 0
    let final_score :=
      if user_tags.isEmpty then cs_score
      else cs_score * (3/10) + tag_score * (1/2) + sim_score * (1/5)
    (track_id, final_score,
      { cold_start_score := round4 cs_score, tag_score := round4 tag_score,
        sim_score := round4 sim_score, strategy := "cold_start" }))

/-- The scoring loop of `build_hybrid_recommendation` as written: the loop
body only assigns `cs_score`/`tag_score`/`sim_score`, while the
`final_score`, `reason` and `scored.append` statements are indented at the
loop's level and run exactly once after it — so `scored` receives a single
entry built from the last iterated candidate, and with no candidates the
trailing statements read the unbound name `cs_score` (a `NameError`). -/
def hybridScoreLoop (candidate_ids : List Nat)
    (candidates tag_scores sim_scores : List (Nat × ℚ)) :
    Except PyError (List (Nat × ℚ × Reason)) :=
  match candidate_ids.getLast? with
  | none => .error (.nameError "name cs_score is not defined")
  | some track_id =>
      let cs_score := lookupD candidates track_id 0
      let tag_score := lookupD tag_scores track_id 0
      let sim_score := lookupD sim_scores track_id 0
      .ok [(track_id,
            cs_score * (1/5) + tag_score * (2/5) + sim_score * (2/5),
            { cold_start_score := round4 cs_score, tag_score := round4 tag_score,
              sim_score := round4 sim_score, strategy := "hybrid" })]

/-- C4: on two candidates (popularity 0.5/0.25, tag affinity 1/0.5, no
similarity), the cold-start loop blends every candidate as claimed — with
profile `0.3*cs + 0.5*tag + 0.2*sim`, without profile the raw popularity —
but the hybrid loop emits only the last candidate (candidate 1 gets no
final score and no reason at all) and raises `NameError` on an empty
candidate list. -/
theorem score_blend_cold_ok_hybrid_single :
    coldStartScoreLoop [(7, 1)] [1, 2] [(1, 1/2), (2, 1/4)]
        [(1, 1), (2, 1/2)] [] =
      [(1, 13/20, { cold_start_score := 1/2, tag_score := 1, sim_score := 0,
                    strategy := "cold_start" }),
       (2, 13/40, { cold_start_score := 1/4, tag_score := 1/2, sim_score := 0,
                    strategy := "cold_start" })] ∧
    coldStartScoreLoop [] [1, 2] [(1, 1/2), (2, 1/4)] [(1, 1), (2, 1/2)] [] =
      [(1, 1/2, { cold_start_score := 1/2, tag_score := 1, sim_score := 0,
                  strategy := "cold_start" }),
       (2, 1/4, { cold_start_score := 1/4, tag_score := 1/2, sim_score := 0,
                  strategy := "cold_start" })] ∧
    hybridScoreLoop [1, 2] [(1, 1/2), (2, 1/4)] [(1, 1), (2, 1/2)] [] =
      .ok [(2, 1/4, { cold_start_score := 1/4, tag_score := 1/2, sim_score := 0,
                      strategy := "hybrid" })] ∧
    hybridScoreLoop [] [(1, 1/2), (2, 1/4)] [(1, 1), (2, 1/2)] [] =
      .error (.nameError "name cs_score is not defined") := by
  refine ⟨?_, ?_, ?_, ?_⟩
  · norm_num [coldStartScoreLoop, lookupD, round4, roundHalfEven]
  · norm_num [coldStartScoreLoop, lookupD, round4, roundHalfEven]
  · norm_num [hybridScoreLoop, lookupD, round4, roundHalfEven]
  · rfl

/-! ## Artist diversity re-ranking (`apply_artist_diversity`, claim C5) -/

/-- A `Track` row with its many-to-many `artists` ids, in order. -/
structure TrackRec where
  id : Nat
  artists : List Nat
deriving Repr, DecidableEq

/-- `t.arists.all()` in `apply_artist_diversity`: the `Track` model defines
the field `artists`, not `arists`, so this attribute access raises
`AttributeError` for every fetched track (the preceding
`prefetch_related("artist")` also names a non-existent field). -/
def trackArists (_t : TrackRec) : Except PyError (List Nat) :=
  .error (.attributeError "Track object has no attribute arists")

/-- The dict comprehension
`{t.id: [a.id for a in t.arists.all()] for t in tracks}`. -/
def buildTrackArtists : List TrackRec → Except PyError (List (Nat × List Nat))
  | [] => .ok []
  | t :: ts => do
      let a ← trackArists t
      let rest ← buildTrackArtists ts
      pure ((t.id, a) :: rest)

def lookupArtists (m : List (Nat × List Nat)) (k : Nat) : List Nat :=
  match m.find? (fun p => p.1 == k) with
  | some p => p.2
  | none => []

def lookupCount (m : List (Nat × Nat)) (k : Nat) : Nat :=
  match m.find? (fun p => p.1 == k) with
  | some p => p.2
  | none => 0

def bumpCount (m : List (Nat × Nat)) (k : Nat) : List (Nat × Nat) :=
  if m.any (fun p => p.1 == k) then
    m.map (fun p => if p.1 == k then (p.1, p.2 + 1) else p)
  else m ++ [(k, 1)]

/-- The forward pass of `apply_artist_diversity`: keep each entry unless its
primary (first) artist already reached `max_per_artist`; a track with no
known artists — or a falsy (0) artist id, per Python truthiness of
`if main_artist` — is always kept and never counted. -/
def diversityLoop (track_artists : List (Nat × List Nat))
    (scored_tracks : List (Nat × ℚ × Reason)) (max_per_artist : Nat) :
    List (Nat × ℚ × Reason) :=
  (scored_tracks.foldl (fun st entry =>
    let artists := lookupArtists track_artists entry.1
    match artists.head? with
    | none => (st.1 ++ [entry], st.2)
    | some a =>
        if a ≠ 0 then
          if max_per_artist ≤ lookupCount st.2 a then st
          else (st.1 ++ [entry], bumpCount st.2 a)
        else (st.1 ++ [entry], st.2))
    (([] : List (Nat × ℚ × Reason)), ([] : List (Nat × Nat)))).1

/-- `apply_artist_diversity(scored_tracks, max_per_artist=2)`: fetch the
`Track` rows of the scored ids, build the track-to-artists map — which
raises `AttributeError` as soon as any track row exists — then run the
capping pass. -/
def apply_artist_diversity (dbTracks : List TrackRec)
    (scored_tracks : List (Nat × ℚ × Reason)) (max_per_artist : Nat := 2) :
    Except PyError (List (Nat × ℚ × Reason)) :=
  let tracks_ids := scored_tracks.map (·.1)
  let tracks := dbTracks.filter (fun t => tracks_ids.contains t.id)
  match buildTrackArtists tracks with
  | .error e => .error e
  | .ok track_artists => .ok (diversityLoop track_artists scored_tracks max_per_artist)

def emptyReason : Reason :=
  { cold_start_score := 0, tag_score := 0, sim_score := 0, strategy := "cold_start" }

/-- C5: as soon as a scored track exists in the `Track` table the function
raises `AttributeError` (`t.arists` vs. the model field `artists`) instead
of returning a capped list; when no track rows match, the artist map is
empty and every entry is kept uncapped — three same-score entries survive a
`max_per_artist = 2` pass. -/
theorem apply_artist_diversity_attribute_error :
    apply_artist_diversity [{ id := 1, artists := [7] }] [(1, 1, emptyReason)] 2 =
      .error (.attributeError "Track object has no attribute arists") ∧
    apply_artist_diversity []
        [(1, 1, emptyReason), (2, 1, emptyReason), (3, 1, emptyReason)] 2 =
      .ok [(1, 1, emptyReason), (2, 1, emptyReason), (3, 1, emptyReason)] :=
  ⟨rfl, rfl⟩

/-! ## Resource locks (`utils/locks.py`, claim C10) -/

/-- The cache backing `django.core.cache`: the set of present lock keys. -/
structure CacheState where
  locks : List String
deriving Repr, DecidableEq

/-- `from datetime import time` binds the name `time` to the
`datetime.time` class, which has no attribute `time`; the call
`time.time()` inside `ResourceLock.acquire` is therefore an attribute
lookup that fails. -/
def datetimeTimeClassAttrTime : Option Unit := none

/-- `cache.add(key, value, timeout)`: atomic insert returning `True` only
when the key was absent. -/
def cacheAdd (cache : CacheState) (key : String) : Bool × CacheState :=
  if cache.locks.contains key then (false, cache)
  else (true, { locks := cache.locks ++ [key] })

structure ResourceLock where
  resource_type : String
  resource_id : String
  timeout : Nat
deriving Repr, DecidableEq

/-- `self.key = f'{resource_type}_lock:{resource_id}'`. -/
def ResourceLock.key (l : ResourceLock) : String :=
  l.resource_type ++ "_lock:" ++ l.resource_id

/-- `ResourceLock.acquire`: first builds `lock_value` whose
`"acquired_at"` entry evaluates `time.time()` — an `AttributeError`, see
`datetimeTimeClassAttrTime` — and only then would reach `cache.add`. -/
def ResourceLock.acquire (l : ResourceLock) (cache : CacheState) :
    Except PyError (Bool × CacheState) :=
  match datetimeTimeClassAttrTime with
  | none => .error (.attributeError "type object datetime.time has no attribute time")
  | some _ => .ok (cacheAdd cache l.key)

/-- `ResourceLock.release`: `cache.delete(self.key)`. -/
def ResourceLock.release (l : ResourceLock) (cache : CacheState) : CacheState :=
  { locks := cache.locks.filter (fun k => k != l.key) }

/-- The `try: with lock: ... except ResourceLockedException:` protocol of
`cold_start_fetch_spotify_global`: `__enter__` calls `acquire`; a `False`
return raises `ResourceLockedException`, caught by the task and turned into
the skipped result; on `True` the body runs and `__exit__` releases the
lock.  Any other exception from `acquire` — such as the `AttributeError` —
propagates uncaught. -/
def lockedTask (l : ResourceLock) (body : CacheState → String × CacheState)
    (cache : CacheState) : Except PyError (String × CacheState) :=
  match l.acquire cache with
  | .error e => .error e
  | .ok (false, c) => .ok ("Spotify: skipped (locked)", c)
  | .ok (true, c) =>
      let r := body c
      .ok (r.1, ResourceLock.release l r.2)

/-- The lock taken by `cold_start_fetch_spotify_global`. -/
def spotifyGlobalLock : ResourceLock :=
  { resource_type := "cold_start_source", resource_id := "spotify_global",
    timeout := 600 }

/-- `cold_start_fetch_spotify_global`, with the Spotify fetching/saving work
abstracted as `body` (the claim is about the lock protocol around it). -/
def cold_start_fetch_spotify_global (body : CacheState → String × CacheState)
    (cache : CacheState) : Except PyError (String × CacheState) :=
  lockedTask spotifyGlobalLock body cache

def spotifyBody : CacheState → String × CacheState :=
  fun c => ("Spotify: 50 tracks", c)

/-- C10: whether the lock is free or already held, the task neither runs
its body nor returns the skipped result — `acquire` raises
`AttributeError` (the `from datetime import time` slip) before touching
the cache, and nothing catches it. -/
theorem resource_lock_always_raises :
    cold_start_fetch_spotify_global spotifyBody { locks := [] } =
      .error (.attributeError "type object datetime.time has no attribute time") ∧
    cold_start_fetch_spotify_global spotifyBody
        { locks := ["cold_start_source_lock:spotify_global"] } =
      .error (.attributeError "type object datetime.time has no attribute time") :=
  ⟨rfl, rfl⟩

/-! ## Recommendation snapshot activation (claim C8) -/

/-- A `Recommendation` row restricted to the fields the activation
invariant concerns. -/
structure RecRow where
  user_id : Nat
  strategy : String
  status : String
  is_active : Bool
deriving Repr, DecidableEq

def isActiveFor (u : Nat) (s : String) (r : RecRow) : Bool :=
  r.user_id == u && r.strategy == s && r.is_active

/-- Number of active rows for one `(user, strategy)` pair. -/
def activeCount (st : List RecRow) (u : Nat) (s : String) : Nat :=
  (st.filter (isActiveFor u s)).length

/-- Modelled from the spec: `_save_recommendation` is called by
`build_cold_start_recommendation` and `build_hybrid_recommendation` but its
definition is not among the provided sources.  Per spec §4.6 a build always
creates a new `READY` row and, in a single atomic transition, activates it
while deactivating the previously active row of the same
`(user, strategy)`. -/
def saveRecommendation (st : List RecRow) (u : Nat) (s : String) : List RecRow :=
  (st.map (fun r =>
    if r.user_id == u && r.strategy == s then { r with is_active := false }
    else r)) ++
  [{ user_id := u, strategy := s, status := "READY", is_active := true }]

/-- A sequence of builds, each an atomic `saveRecommendation` transition. -/
def buildSeq (st : List RecRow) (builds : List (Nat × String)) : List RecRow :=
  builds.foldl (fun acc b => saveRecommendation acc b.1 b.2) st

theorem isActiveFor_map_save (u₀ : Nat) (s₀ : String) (u : Nat) (s : String)
    (r : RecRow) :
    isActiveFor u s
      (if r.user_id == u₀ && r.strategy == s₀ then { r with is_active := false }
       else r) =
    (isActiveFor u s r && !(r.user_id == u₀ && r.strategy == s₀)) := by
  by_cases h : (r.user_id == u₀ && r.strategy == s₀) = true
  · rw [if_pos h, h]
    simp [isActiveFor]
  · rw [if_neg h]
    simp only [Bool.not_eq_true] at h
    rw [h]
    simp

theorem activeCount_save (st : List RecRow) (u₀ : Nat) (s₀ : String)
    (u : Nat) (s : String) :
    activeCount (saveRecommendation st u₀ s₀) u s =
      if u₀ = u ∧ s₀ = s then 1 else activeCount st u s := by
  unfold activeCount saveRecommendation
  rw [List.filter_append, List.length_append]
  by_cases hk : u₀ = u ∧ s₀ = s
  · obtain ⟨rfl, rfl⟩ := hk
    rw [if_pos ⟨rfl, rfl⟩]
    have hnew : (List.filter (isActiveFor u₀ s₀)
        [{ user_id := u₀, strategy := s₀, status := "READY", is_active := true }]).length = 1 := by
      simp [isActiveFor]
    have hold : (List.filter (isActiveFor u₀ s₀)
        (st.map (fun r =>
          if r.user_id == u₀ && r.strategy == s₀ then { r with is_active := false }
          else r))).length = 0 := by
      rw [List.length_eq_zero, List.filter_eq_nil_iff]
      intro r hr
      obtain ⟨r₀, _, rfl⟩ := List.mem_map.mp hr
      by_cases h : (r₀.user_id == u₀ && r₀.strategy == s₀) = true
      · rw [if_pos h]
        simp [isActiveFor]
      · rw [if_neg h]
        simp only [Bool.and_eq_true, beq_iff_eq, not_and] at h
        simp only [isActiveFor, Bool.and_eq_true, beq_iff_eq, not_and]
        intro h1 _
        exact h h1.1 h1.2
    rw [hnew, hold]
  · rw [if_neg hk]
    have hnew : (List.filter (isActiveFor u s)
        [{ user_id := u₀, strategy := s₀, status := "READY", is_active := true }]).length = 0 := by
      have hpred : isActiveFor u s
          { user_id := u₀, strategy := s₀, status := "READY", is_active := true } = false := by
        rw [← Bool.not_eq_true]
        simp only [isActiveFor, Bool.and_eq_true, beq_iff_eq]
        intro hcon
        exact hk ⟨hcon.1.1, hcon.1.2⟩
      simp [List.filter, hpred]
    have hmap : (List.filter (isActiveFor u s)
        (st.map (fun r =>
          if r.user_id == u₀ && r.strategy == s₀ then { r with is_active := false }
          else r))).length = (List.filter (isActiveFor u s) st).length := by
      rw [List.filter_map, List.length_map]
      congr 1
      apply List.filter_congr
      intro r _
      show isActiveFor u s
          (if r.user_id == u₀ && r.strategy == s₀ then { r with is_active := false }
           else r) = isActiveFor u s r
      by_cases h : (r.user_id == u₀ && r.strategy == s₀) = true
      · rw [if_pos h]
        simp only [Bool.and_eq_true, beq_iff_eq] at h
        have hfalse : isActiveFor u s r = false := by
          rw [← Bool.not_eq_true]
          simp only [isActiveFor, Bool.and_eq_true, beq_iff_eq]
          intro hcon
          refine hk ⟨?_, ?_⟩
          · rw [← h.1]; exact hcon.1.1
          · rw [← h.2]; exact hcon.1.2
        rw [hfalse]
        simp [isActiveFor]
      · rw [if_neg h]
    rw [hnew, hmap, Nat.add_zero]

theorem activeCount_buildSeq (st : List RecRow) (builds : List (Nat × String))
    (u : Nat) (s : String) :
    activeCount (buildSeq st builds) u s =
      if (u, s) ∈ builds then 1 else activeCount st u s := by
  induction builds generalizing st with
  | nil => simp [buildSeq]
  | cons b bs ih =>
      simp only [buildSeq, List.foldl_cons]
      rw [show List.foldl (fun acc b => saveRecommendation acc b.1 b.2)
            (saveRecommendation st b.1 b.2) bs =
          buildSeq (saveRecommendation st b.1 b.2) bs from rfl, ih]
      by_cases hmem : (u, s) ∈ bs
      · rw [if_pos hmem, if_pos (List.mem_cons_of_mem b hmem)]
      · rw [if_neg hmem, activeCount_save]
        by_cases hb : b.1 = u ∧ b.2 = s
        · have hbeq : b = (u, s) := by rw [← hb.1, ← hb.2]
          have hm : (u, s) ∈ b :: bs := List.mem_cons.mpr (Or.inl hbeq.symm)
          rw [if_pos hb, if_pos hm]
        · have hm : (u, s) ∉ b :: bs := by
            intro hcon
            rcases List.mem_cons.mp hcon with hcon | hcon
            · exact hb ⟨(congrArg Prod.fst hcon).symm, (congrArg Prod.snd hcon).symm⟩
            · exact hmem hcon
          rw [if_neg hb, if_neg hm]

theorem length_buildSeq (st : List RecRow) (builds : List (Nat × String)) :
    (buildSeq st builds).length = st.length + builds.length := by
  induction builds generalizing st with
  | nil => simp [buildSeq]
  | cons b bs ih =>
      simp only [buildSeq, List.foldl_cons] at *
      rw [ih]
      simp [saveRecommendation]
      omega

/-- C8: starting from any state with at most one active row per
`(user, strategy)`, every sequence of builds keeps that bound, leaves
exactly one active row for every pair that was built (each build is a
single `saveRecommendation` transition that activates the new row and
deactivates the prior one), and appends exactly one new row per build. -/
theorem recommendation_active_invariant (st : List RecRow)
    (builds : List (Nat × String))
    (hinv : ∀ u s, activeCount st u s ≤ 1) :
    (∀ u s, activeCount (buildSeq st builds) u s ≤ 1) ∧
    (∀ u s, (u, s) ∈ builds → activeCount (buildSeq st builds) u s = 1) ∧
    (buildSeq st builds).length = st.length + builds.length := by
  refine ⟨?_, ?_, length_buildSeq st builds⟩
  · intro u s
    rw [activeCount_buildSeq]
    by_cases h : (u, s) ∈ builds
    · simp [h]
    · simpa [h] using hinv u s
  · intro u s h
    rw [activeCount_buildSeq, if_pos h]

/-- Witness for C8: from an empty table, one cold-start build followed by a
hybrid build and a cold-start rebuild leaves exactly one active row per
built strategy. -/
theorem recommendation_active_invariant_witness :
    activeCount (buildSeq []
        [(1, "COLD_START"), (1, "HYBRID_START"), (1, "COLD_START")])
      1 "COLD_START" = 1 ∧
    activeCount (buildSeq []
        [(1, "COLD_START"), (1, "HYBRID_START"), (1, "COLD_START")])
      1 "HYBRID_START" = 1 := by
  have h := recommendation_active_invariant []
      [(1, "COLD_START"), (1, "HYBRID_START"), (1, "COLD_START")]
      (fun u s => by simp [activeCount])
  exact ⟨h.2.1 1 "COLD_START" (by simp), h.2.1 1 "HYBRID_START" (by simp)⟩

end MusicRecommender
